import Mathlib

/-!
Verification of the invoice-creation module of the IT_Web_Odd_On repository.

The definitions below are a shallow embedding of
`src/modules/invoice_creation/routes.py` (and, for the database unique
constraint, `src/mysql_migration_invoice_complete.py`):

* `SerialNumberLookup` models a row of the `serial_number_lookups` table
  (nullable columns that no claim depends on are modelled with plain
  default values instead of `Option`).
* `lookup_serial` models the `/api/lookup_serial` endpoint: cache check
  with a 1-hour freshness window, fall back to the remote SAP SQL query,
  upsert of the cache row.
* `groupSerials`, `buildSapInvoice`, `buildLocalRecords` and
  `create_invoice` model the `/api/create_invoice` endpoint: validation,
  resolution of each serial from the cache, grouping by
  (item_code, warehouse_code), payload construction and submission
  handling.
* `createRouteLookupRows` / `createRouteRecord` model the lookup-row
  recording performed by the `/create` POST route together with the
  `serial_number VARCHAR(100) NOT NULL UNIQUE` constraint of the
  `serial_number_lookups` table.

Time is modelled as an integer count of seconds (`datetime.utcnow()`
becomes an explicit `now : Int` parameter); the Python comparison
`datetime.utcnow() - cached_lookup.last_updated < timedelta(hours=1)`
becomes `now - last_updated < 3600`.  Remote HTTP interactions are
modelled by explicit outcome values supplied in an environment record,
and the calls a request performs are collected in its result.
-/

/-- A row of the `serial_number_lookups` table (see the migration script:
`serial_number` is `NOT NULL UNIQUE`). -/
structure SerialNumberLookup where
  serial_number : String
  item_code : String
  item_name : String
  warehouse_code : String
  warehouse_name : String
  branch_id : Int
  branch_name : String
  lookup_status : String
  sap_response : String
  last_updated : Int
  deriving DecidableEq

/-- One record of the SAP SQL-query response (`values[0]` in the code);
the fields read by `lookup_serial` via `item_data.get(...)`. -/
structure ItemData where
  ItemCode : String
  itemName : String
  DistNumber : String
  WhsCode : String
  WhsName : String
  BPLid : Int
  BPLName : String
  deriving DecidableEq

/-- Deterministic stand-in for `json.dumps(item_data)`. -/
def renderItemData (d : ItemData) : String :=
  "[ItemCode=" ++ d.ItemCode ++ ",itemName=" ++ d.itemName
    ++ ",DistNumber=" ++ d.DistNumber ++ ",WhsCode=" ++ d.WhsCode
    ++ ",WhsName=" ++ d.WhsName ++ ",BPLid=" ++ toString d.BPLid
    ++ ",BPLName=" ++ d.BPLName ++ "]"

/-- Strip leading and trailing whitespace from a list of characters. -/
def stripChars (l : List Char) : List Char :=
  ((l.dropWhile Char.isWhitespace).reverse.dropWhile Char.isWhitespace).reverse

/-- Python's `str.strip()`: remove leading and trailing whitespace.
(Stated over the character list so that it evaluates by kernel
reduction.) -/
def pyStrip (s : String) : String :=
  String.mk (stripChars s.data)

/-- `SerialNumberLookup.query.filter_by(serial_number=sn).first()`. -/
def findStore (store : List SerialNumberLookup) (sn : String) :
    Option SerialNumberLookup :=
  store.find? (fun e => e.serial_number == sn)

/-- Replace the first row whose serial number is `sn` (the ORM mutates the
fetched row in place). -/
def updateStore (store : List SerialNumberLookup) (sn : String)
    (e : SerialNumberLookup) : List SerialNumberLookup :=
  match store with
  | [] => []
  | c :: rest =>
    if c.serial_number == sn then e :: rest else c :: updateStore rest sn e

/-- The field assignments of the `if cached_lookup:` update branch of
`lookup_serial` (the row keeps its `serial_number`). -/
def refreshedEntry (old : SerialNumberLookup) (item : ItemData) (now : Int) :
    SerialNumberLookup :=
  { serial_number := old.serial_number
    item_code := item.ItemCode
    item_name := item.itemName
    warehouse_code := item.WhsCode
    warehouse_name := item.WhsName
    branch_id := item.BPLid
    branch_name := item.BPLName
    lookup_status := "validated"
    sap_response := renderItemData item
    last_updated := now }

/-- The `else:` insert branch of `lookup_serial`: a brand new row. -/
def newEntry (sn : String) (item : ItemData) (now : Int) :
    SerialNumberLookup :=
  { serial_number := sn
    item_code := item.ItemCode
    item_name := item.itemName
    warehouse_code := item.WhsCode
    warehouse_name := item.WhsName
    branch_id := item.BPLid
    branch_name := item.BPLName
    lookup_status := "validated"
    sap_response := renderItemData item
    last_updated := now }

/-- Outcome of the SAP SQL-query POST in `lookup_serial`. -/
inductive LookupOutcome where
  | ok (values : List ItemData)
  | httpError (status : Nat) (text : String)
  | transportError (msg : String)
  deriving DecidableEq

/-- Remote environment for `lookup_serial`: whether
`sap.ensure_logged_in()` succeeds and what the SQL query returns. -/
structure LookupEnv where
  login_ok : Bool
  remote : LookupOutcome
  deriving DecidableEq

/-- The response data built from a cached row on a cache hit
(`DistNumber` is set to the requested serial number). -/
def cachedItemData (sn : String) (c : SerialNumberLookup) : ItemData :=
  { ItemCode := c.item_code
    itemName := c.item_name
    DistNumber := sn
    WhsCode := c.warehouse_code
    WhsName := c.warehouse_name
    BPLid := c.branch_id
    BPLName := c.branch_name }

/-- Result of one `lookup_serial` request: the JSON response fields that
matter, the store after the request, and how many SAP SQL-query calls
were made. -/
structure LookupResult where
  success : Bool
  message : String
  payload : Option ItemData
  cached : Bool
  status : Nat
  store : List SerialNumberLookup
  remoteCalls : Nat
  deriving DecidableEq

/-- The SAP branch of `lookup_serial` (everything after the cache check;
`cached?` is the `cached_lookup` variable still in scope). -/
def lookupFromSap (store : List SerialNumberLookup) (now : Int)
    (sn : String) (env : LookupEnv) (cached? : Option SerialNumberLookup) :
    LookupResult :=
  if env.login_ok then
    match env.remote with
    | .ok (item :: _) =>
      let store' :=
        match cached? with
        | some c => updateStore store sn (refreshedEntry c item now)
        | none => store ++ [newEntry sn item now]
      { success := true, message := "", payload := some item,
        cached := false, status := 200, store := store', remoteCalls := 1 }
    | .ok [] =>
      { success := false,
        message := "Serial number " ++ sn ++ " not found in SAP",
        payload := none, cached := false, status := 404, store := store,
        remoteCalls := 1 }
    | .httpError s _ =>
      { success := false, message := "SAP query failed: " ++ toString s,
        payload := none, cached := false, status := 500, store := store,
        remoteCalls := 1 }
    | .transportError m =>
      { success := false, message := "SAP lookup error: " ++ m,
        payload := none, cached := false, status := 500, store := store,
        remoteCalls := 1 }
  else
    { success := false, message := "SAP connection failed", payload := none,
      cached := false, status := 500, store := store, remoteCalls := 0 }

/-- The `/api/lookup_serial` endpoint. -/
def lookup_serial (store : List SerialNumberLookup) (now : Int)
    (raw : String) (env : LookupEnv) : LookupResult :=
  if pyStrip raw = "" then
    { success := false, message := "Serial number is required",
      payload := none, cached := false, status := 400, store := store,
      remoteCalls := 0 }
  else
    match findStore store (pyStrip raw) with
    | some c =>
      if now - c.last_updated < 3600 then
        { success := true, message := "",
          payload := some (cachedItemData (pyStrip raw) c),
          cached := true, status := 200, store := store, remoteCalls := 0 }
      else
        lookupFromSap store now (pyStrip raw) env (some c)
    | none => lookupFromSap store now (pyStrip raw) env none

/-- One element of a line group's `SerialNumbers` list (the per-serial
`Quantity` is the constant `1.0`, modelled as `1`). -/
structure SerialAssignment where
  InternalSerialNumber : String
  BaseLineNumber : Nat
  Quantity : Nat
  deriving DecidableEq

/-- One value of the `items_data` dict in `create_invoice`. -/
structure ItemsDataEntry where
  ItemCode : String
  ItemDescription : String
  WarehouseCode : String
  TaxCode : String
  Quantity : Nat
  SerialNumbers : List SerialAssignment
  BPL_IDAssignedToInvoice : Int
  BPLName : String
  deriving DecidableEq

/-- `key = f"{item_code}_{warehouse_code}"`. -/
def itemKey (c : SerialNumberLookup) : String :=
  c.item_code ++ "_" ++ c.warehouse_code

/-- The fresh dict stored under a key on first sight. -/
def initEntry (c : SerialNumberLookup) : ItemsDataEntry :=
  { ItemCode := c.item_code
    ItemDescription := c.item_name
    WarehouseCode := c.warehouse_code
    TaxCode := "CSGST@18"
    Quantity := 0
    SerialNumbers := []
    BPL_IDAssignedToInvoice := c.branch_id
    BPLName := c.branch_name }

/-- `key in items_data` (Python dicts preserve insertion order, so the
dict is modelled as an association list). -/
def containsKey (m : List (String × ItemsDataEntry)) (k : String) : Bool :=
  m.any (fun p => p.1 == k)

/-- Update the value stored under `k` in place. -/
def modifyKey (m : List (String × ItemsDataEntry)) (k : String)
    (f : ItemsDataEntry → ItemsDataEntry) : List (String × ItemsDataEntry) :=
  match m with
  | [] => []
  | (k', e) :: rest =>
    if k' == k then (k', f e) :: rest else (k', e) :: modifyKey rest k f

/-- `items_data[key]['Quantity'] += 1` followed by the
`SerialNumbers.append({...})` of the grouping loop. -/
def appendSerial (sn : String) (ln : Nat) (e : ItemsDataEntry) :
    ItemsDataEntry :=
  { e with Quantity := e.Quantity + 1
           SerialNumbers := e.SerialNumbers ++ [⟨sn, ln, 1⟩] }

/-- One iteration of the grouping loop of `create_invoice` for a resolved
serial (`ln` is the value the `line_number` variable has at that point). -/
def groupStep (items : List (String × ItemsDataEntry))
    (c : SerialNumberLookup) (sn : String) (ln : Nat) :
    List (String × ItemsDataEntry) :=
  let key := itemKey c
  let items1 :=
    if containsKey items key then items else items ++ [(key, initEntry c)]
  modifyKey items1 key (appendSerial sn ln)

/-- The whole grouping loop of `create_invoice`.  Each serial is resolved
with a bare cache query (`filter_by(serial_number=...).first()`); a
missing row aborts the request.  The `line_number` variable is *not*
incremented inside this loop in the source — it stays at the value `ln`
it had when the loop started (0), which is why it is threaded through
unchanged. -/
def groupSerials (cache : List SerialNumberLookup) :
    List String → List (String × ItemsDataEntry) → Nat →
    Except String (List (String × ItemsDataEntry))
  | [], items, _ => .ok items
  | sn :: rest, items, ln =>
    match findStore cache sn with
    | none =>
      .error ("Serial number " ++ sn ++ " not found. Please lookup first.")
    | some c => groupSerials cache rest (groupStep items c sn ln) ln

/-- One element of the payload's `DocumentLines`. -/
structure DocumentLine where
  ItemCode : String
  ItemDescription : String
  Quantity : Nat
  WarehouseCode : String
  TaxCode : String
  SerialNumbers : List SerialAssignment
  deriving DecidableEq

/-- The `DocumentLines` list built by the second loop of
`create_invoice`. -/
def buildDocumentLines (items : List (String × ItemsDataEntry)) :
    List DocumentLine :=
  items.map (fun p =>
    { ItemCode := p.2.ItemCode
      ItemDescription := p.2.ItemDescription
      Quantity := p.2.Quantity
      WarehouseCode := p.2.WarehouseCode
      TaxCode := p.2.TaxCode
      SerialNumbers := p.2.SerialNumbers })

/-- The `sap_invoice` JSON object.  Dates are integer timestamps:
`DocDate` is `datetime.now()` and `DocDueDate` is one day later. -/
structure SapInvoice where
  DocDate : Int
  DocDueDate : Int
  CardCode : String
  BPL_IDAssignedToInvoice : Int
  BPLName : String
  DocumentLines : List DocumentLine
  deriving DecidableEq

/-- Payload construction (lines 404-428 of the route): header fields from
the current date and customer, branch fields from the first grouped item
(`list(items_data.values())[0]`, which raises on an empty dict — hence
`Option`). -/
def buildSapInvoice (customer : String) (now : Int)
    (items : List (String × ItemsDataEntry)) : Option SapInvoice :=
  match items with
  | [] => none
  | first :: _ =>
    some { DocDate := now
           DocDueDate := now + 86400
           CardCode := customer
           BPL_IDAssignedToInvoice := first.2.BPL_IDAssignedToInvoice
           BPLName := first.2.BPLName
           DocumentLines := buildDocumentLines items }

/-- Deterministic stand-in for one serialized serial assignment
(the per-serial quantity is serialized as `1.0`). -/
def renderAssignment (s : SerialAssignment) : String :=
  "[InternalSerialNumber=" ++ s.InternalSerialNumber
    ++ ",BaseLineNumber=" ++ toString s.BaseLineNumber
    ++ ",Quantity=" ++ toString s.Quantity ++ ".0]"

/-- Deterministic stand-in for one serialized document line. -/
def renderDocumentLine (l : DocumentLine) : String :=
  "[ItemCode=" ++ l.ItemCode ++ ",ItemDescription=" ++ l.ItemDescription
    ++ ",Quantity=" ++ toString l.Quantity ++ ".0,WarehouseCode="
    ++ l.WarehouseCode ++ ",TaxCode=" ++ l.TaxCode ++ ",SerialNumbers=["
    ++ String.intercalate "," (l.SerialNumbers.map renderAssignment) ++ "]]"

/-- Deterministic stand-in for `json.dumps(sap_invoice, indent=2)`:
a byte string fully determined by the payload value. -/
def renderSapInvoice (inv : SapInvoice) : String :=
  "[DocDate=" ++ toString inv.DocDate
    ++ ",DocDueDate=" ++ toString inv.DocDueDate
    ++ ",CardCode=" ++ inv.CardCode
    ++ ",BPL_IDAssignedToInvoice=" ++ toString inv.BPL_IDAssignedToInvoice
    ++ ",BPLName=" ++ inv.BPLName
    ++ ",DocumentLines=["
    ++ String.intercalate "," (inv.DocumentLines.map renderDocumentLine)
    ++ "]]"

/-- A row of `invoice_lines` as written by the second loop. -/
structure InvoiceLine where
  line_number : Nat
  item_code : String
  item_description : String
  quantity : Nat
  warehouse_code : String
  tax_code : String
  deriving DecidableEq

/-- A row of `invoice_serial_numbers`; `line_number` records which local
line the row is attached to (`invoice_line_id` after the flush). -/
structure InvoiceSerialNumber where
  line_number : Nat
  serial_number : String
  base_line_number : Nat
  quantity : Nat
  deriving DecidableEq

/-- The local `invoice_lines` / `invoice_serial_numbers` rows created by
the second loop of `create_invoice`: here `line_number` finally *is*
incremented once per grouped line, while each serial row copies the
`BaseLineNumber` stored during the first loop. -/
def buildLocalRecords (items : List (String × ItemsDataEntry)) :
    List (InvoiceLine × List InvoiceSerialNumber) :=
  items.enum.map (fun p =>
    ({ line_number := p.1
       item_code := p.2.2.ItemCode
       item_description := p.2.2.ItemDescription
       quantity := p.2.2.Quantity
       warehouse_code := p.2.2.WarehouseCode
       tax_code := p.2.2.TaxCode },
     p.2.2.SerialNumbers.map (fun s =>
       { line_number := p.1
         serial_number := s.InternalSerialNumber
         base_line_number := s.BaseLineNumber
         quantity := s.Quantity })))

/-- Outcome of the `POST /b1s/v1/Invoices` submission. -/
inductive SubmitOutcome where
  | created (docEntry : Int) (docNum : Int) (docTotal : Int)
  | httpError (status : Nat) (text : String) (parsed : Option (Option String))
  | transportError (msg : String)
  deriving DecidableEq

/-- Remote environment for `create_invoice`. -/
structure SapEnv where
  login_ok : Bool
  submission : SubmitOutcome
  deriving DecidableEq

/-- The error-message extraction of the non-201 branch:
`error_message` defaults to `f"SAP invoice creation failed: {status}"`,
is replaced by `error.message.value` when the body parses as JSON and has
that path, and by the raw body when JSON parsing throws. -/
def sapErrorMessage (status : Nat) (text : String)
    (parsed : Option (Option String)) : String :=
  let dflt := "SAP invoice creation failed: " ++ toString status
  if text = "" then dflt
  else
    match parsed with
    | none => text
    | some none => dflt
    | some (some v) => v

/-- A row of `invoice_documents` with the fields `create_invoice`
touches. -/
structure InvoiceDocument where
  customer_code : String
  status : String
  json_payload : String
  sap_response : String
  sap_doc_entry : Option Int
  sap_doc_num : Option Int
  invoice_number : Option String
  total_amount : Option Int
  deriving DecidableEq

/-- The draft record as it stands when the submission is attempted. -/
def draftInvoice (customer : String) (payload : SapInvoice) :
    InvoiceDocument :=
  { customer_code := customer
    status := "draft"
    json_payload := renderSapInvoice payload
    sap_response := ""
    sap_doc_entry := none
    sap_doc_num := none
    invoice_number := none
    total_amount := none }

/-- Deterministic stand-in for `json.dumps(sap_response, indent=2)` of a
201 response. -/
def renderSapSuccess (docEntry docNum docTotal : Int) : String :=
  "[DocEntry=" ++ toString docEntry ++ ",DocNum=" ++ toString docNum
    ++ ",DocTotal=" ++ toString docTotal ++ "]"

/-- Remote calls a `create_invoice` request can make.  The source code of
`create_invoice` never issues a serial lookup call — `lookupSerial` is
here so that its absence is expressible. -/
inductive RemoteCall where
  | lookupSerial (sn : String)
  | submitInvoice (payload : SapInvoice)
  deriving DecidableEq

/-- Result of one `create_invoice` request: the JSON response fields that
matter, the committed invoice row (`none` when no commit happened before
returning), and the remote calls made. -/
structure CreateResult where
  success : Bool
  message : String
  status : Nat
  committed : Option InvoiceDocument
  calls : List RemoteCall
  deriving DecidableEq

/-- Lines 456-520 of the route: the SAP login check, the `POST
/b1s/v1/Invoices` submission and the handling of its outcome, given the
draft record's customer code and the built payload. -/
def submitStage (customer : String) (payload : SapInvoice) (env : SapEnv) :
    CreateResult :=
  if env.login_ok then
    match env.submission with
    | .created docEntry docNum docTotal =>
      { success := true
        message := "Invoice " ++ toString docNum ++ " created successfully"
        status := 200
        committed := some
          { draftInvoice customer payload with
              status := "created"
              sap_response := renderSapSuccess docEntry docNum docTotal
              sap_doc_entry := some docEntry
              sap_doc_num := some docNum
              invoice_number := some (toString docNum)
              total_amount := some docTotal }
        calls := [.submitInvoice payload] }
    | .httpError s text parsed =>
      { success := false
        message := sapErrorMessage s text parsed
        status := 500
        committed := some
          { draftInvoice customer payload with
              status := "failed", sap_response := text }
        calls := [.submitInvoice payload] }
    | .transportError m =>
      { success := false
        message := "SAP invoice creation error: " ++ m
        status := 500
        committed := some
          { draftInvoice customer payload with
              status := "failed", sap_response := m }
        calls := [.submitInvoice payload] }
  else
    { success := false, message := "SAP connection failed",
      status := 500, committed := none, calls := [] }

/-- The `/api/create_invoice` endpoint (lines 339-532 of the route). -/
def create_invoice (rawCustomer : String) (serial_numbers : List String)
    (cache : List SerialNumberLookup) (now : Int) (env : SapEnv) :
    CreateResult :=
  if pyStrip rawCustomer = "" then
    { success := false, message := "Customer code is required",
      status := 400, committed := none, calls := [] }
  else if serial_numbers = [] then
    { success := false, message := "At least one serial number is required",
      status := 400, committed := none, calls := [] }
  else
    match groupSerials cache serial_numbers [] 0 with
    | .error msg =>
      { success := false, message := msg, status := 400,
        committed := none, calls := [] }
    | .ok items =>
      match buildSapInvoice (pyStrip rawCustomer) now items with
      | none =>
        { success := false, message := "Internal error: list index out of range",
          status := 500, committed := none, calls := [] }
      | some payload => submitStage (pyStrip rawCustomer) payload env

/-- One element of the `serial_items` list posted to the `/create`
route (the fields the route reads). -/
structure SerialItemInput where
  serial_number : String
  item_code : String
  item_name : String
  warehouse : String
  deriving DecidableEq

/-- Deterministic stand-in for `json.dumps(item_data)` in the `/create`
route. -/
def renderSerialItemInput (it : SerialItemInput) : String :=
  "[serial_number=" ++ it.serial_number ++ ",item_code=" ++ it.item_code
    ++ ",item_name=" ++ it.item_name ++ ",warehouse=" ++ it.warehouse ++ "]"

/-- The lookup rows the `/create` route stages with `db.session.add`: one
brand-new `SerialNumberLookup()` per posted item, unconditionally —
no query for an existing row is made. -/
def createRouteLookupRows (items : List SerialItemInput) (now : Int) :
    List SerialNumberLookup :=
  items.map (fun it =>
    { serial_number := it.serial_number
      item_code := it.item_code
      item_name := it.item_name
      warehouse_code := it.warehouse
      warehouse_name := ""
      branch_id := 0
      branch_name := ""
      lookup_status := "validated"
      sap_response := renderSerialItemInput it
      last_updated := now })

/-- `db.session.commit()` of staged inserts against the
`serial_number VARCHAR(100) NOT NULL UNIQUE` constraint of
`serial_number_lookups`: the commit succeeds only when all serial
numbers, old and new, stay pairwise distinct; otherwise MySQL raises an
integrity error, the route's `except` handler rolls the session back and
the table is unchanged. -/
def commitInserts (store : List SerialNumberLookup)
    (rows : List SerialNumberLookup) :
    Except String (List SerialNumberLookup) :=
  if ((store ++ rows).map (fun e => e.serial_number)).Nodup then
    .ok (store ++ rows)
  else
    .error "IntegrityError: duplicate serial_number"

/-- The lookup-data recording performed by one `/create` POST. -/
def createRouteRecord (store : List SerialNumberLookup)
    (items : List SerialItemInput) (now : Int) :
    Except String (List SerialNumberLookup) :=
  commitInserts store (createRouteLookupRows items now)

/-! ## Concrete inputs used by the end-to-end scenario -/

/-- Cache row for the scenario: SN1 resolves to ITM-A in WH1. -/
def c1Row1 : SerialNumberLookup :=
  { serial_number := "SN1", item_code := "ITM-A", item_name := "Item A",
    warehouse_code := "WH1", warehouse_name := "Warehouse One",
    branch_id := 1, branch_name := "Main", lookup_status := "validated",
    sap_response := "", last_updated := 0 }

/-- Cache row for the scenario: SN2 resolves to ITM-A in WH1. -/
def c1Row2 : SerialNumberLookup :=
  { c1Row1 with serial_number := "SN2" }

/-- Cache row for the scenario: SN3 resolves to ITM-B in WH1. -/
def c1Row3 : SerialNumberLookup :=
  { c1Row1 with
      serial_number := "SN3"
      item_code := "ITM-B"
      item_name := "Item B" }

/-- The lookup cache of the spec's end-to-end scenario. -/
def c1Cache : List SerialNumberLookup := [c1Row1, c1Row2, c1Row3]

/-- An environment in which SAP accepts the submission. -/
def okEnv : SapEnv := { login_ok := true, submission := .created 10 100 500 }

/-- An environment in which SAP rejects the submission with a parsed
business-rule error. -/
def rejectEnv : SapEnv :=
  { login_ok := true
    submission := .httpError 400 "error body"
      (some (some "No matching records found (ODBC -2028)")) }

/-- An environment in which the submission transport fails. -/
def downEnv : SapEnv :=
  { login_ok := true, submission := .transportError "Connection refused" }

/-- A lookup environment in which the SQL query returns one record. -/
def oneItemEnv : LookupEnv :=
  { login_ok := true
    remote := .ok [{ ItemCode := "ITM-A", itemName := "Item A",
                     DistNumber := "SN1", WhsCode := "WH1",
                     WhsName := "Warehouse One", BPLid := 1,
                     BPLName := "Main" }] }

/-- The payload `create_invoice "C001" ["SN1"] [c1Row1] 0` builds. -/
def c6Payload : SapInvoice :=
  { DocDate := 0
    DocDueDate := 86400
    CardCode := "C001"
    BPL_IDAssignedToInvoice := 1
    BPLName := "Main"
    DocumentLines :=
      [{ ItemCode := "ITM-A", ItemDescription := "Item A", Quantity := 1,
         WarehouseCode := "WH1", TaxCode := "CSGST@18",
         SerialNumbers := [⟨"SN1", 0, 1⟩] }] }

/-- Rewriting all cache timestamps through `f` (used to state that
`create_invoice` ignores entry freshness). -/
def retimeStore (f : Int → Int) (store : List SerialNumberLookup) :
    List SerialNumberLookup :=
  store.map (fun e => { e with last_updated := f e.last_updated })

/-- Total quantity over all line groups. -/
def sumQ (m : List (String × ItemsDataEntry)) : Nat :=
  (m.map (fun p => p.2.Quantity)).sum

/-- How many serial-number assignments for serial `s` exist across all
line groups. -/
def countSerial (s : String) (m : List (String × ItemsDataEntry)) : Nat :=
  (m.map (fun p =>
    (p.2.SerialNumbers.filter
      (fun a => a.InternalSerialNumber == s)).length)).sum

/-- Append a key to a key sequence unless it is already present — the
effect one dict insertion has on the dict's key order. -/
def insKey (ks : List String) (k : String) : List String :=
  if ks.any (fun x => x == k) then ks else ks ++ [k]

/-- The grouping keys of a serial list, in input order, as resolved
through the cache (unresolvable serials contribute nothing). -/
def keyListOf (cache : List SerialNumberLookup) (serials : List String) :
    List String :=
  serials.filterMap (fun sn => (findStore cache sn).map itemKey)

/-- The group stored under key `k`. -/
def lookupEntry (m : List (String × ItemsDataEntry)) (k : String) :
    Option ItemsDataEntry :=
  (m.find? (fun p => p.1 == k)).map Prod.snd

/-- The line groups `create_invoice` builds in the end-to-end scenario
(`groupSerials c1Cache ["SN1", "SN2", "SN3"] [] 0`). -/
def c2Groups : List (String × ItemsDataEntry) :=
  [("ITM-A_WH1",
    { ItemCode := "ITM-A", ItemDescription := "Item A",
      WarehouseCode := "WH1", TaxCode := "CSGST@18", Quantity := 2,
      SerialNumbers := [⟨"SN1", 0, 1⟩, ⟨"SN2", 0, 1⟩],
      BPL_IDAssignedToInvoice := 1, BPLName := "Main" }),
   ("ITM-B_WH1",
    { ItemCode := "ITM-B", ItemDescription := "Item B",
      WarehouseCode := "WH1", TaxCode := "CSGST@18", Quantity := 1,
      SerialNumbers := [⟨"SN3", 0, 1⟩],
      BPL_IDAssignedToInvoice := 1, BPLName := "Main" })]

/-- C1: the claim (and the spec) say each serial-number assignment
carries the index of its owning line group — in the scenario, SN3 in
group 1 would carry base line number 1.  Evaluating the grouping loop
and the local-record loop of `create_invoice` on exactly that scenario
shows every assignment carries base line number 0, SN3 included: the
`line_number` variable is only incremented in the later line-building
loop, after all assignments have already been created. -/
theorem create_invoice_base_line_numbers_all_zero :
    (groupSerials c1Cache ["SN1", "SN2", "SN3"] [] 0).map
      (fun gs => (buildLocalRecords gs).map
        (fun p => (p.1.line_number, p.1.item_code,
                   p.2.map (fun r => (r.serial_number, r.base_line_number)))))
      = Except.ok [(0, "ITM-A", [("SN1", 0), ("SN2", 0)]),
                   (1, "ITM-B", [("SN3", 0)])] := by
  rfl

/-! ## Helper lemmas -/

/-- If some requested serial has no cache row, the grouping loop of
`create_invoice` aborts with an error. -/
theorem groupSerials_error_of_missing (cache : List SerialNumberLookup)
    (serials : List String) (items : List (String × ItemsDataEntry))
    (ln : Nat) (sn : String) (hmem : sn ∈ serials)
    (hnone : findStore cache sn = none) :
    ∃ msg, groupSerials cache serials items ln = Except.error msg := by
  induction serials generalizing items with
  | nil => cases hmem
  | cons hd tl ih =>
    cases hfind : findStore cache hd with
    | none =>
      exact ⟨"Serial number " ++ hd ++ " not found. Please lookup first.",
             by simp only [groupSerials, hfind]⟩
    | some c =>
      rcases List.mem_cons.mp hmem with rfl | htl
      · rw [hfind] at hnone; cases hnone
      · obtain ⟨msg, hmsg⟩ := ih (groupStep items c hd ln) htl
        exact ⟨msg, by simp only [groupSerials, hfind, hmsg]⟩

/-- `findStore` commutes with rewriting timestamps. -/
theorem findStore_retime (f : Int → Int) (store : List SerialNumberLookup)
    (sn : String) :
    findStore (retimeStore f store) sn
      = (findStore store sn).map (fun e => { e with last_updated := f e.last_updated }) := by
  induction store with
  | nil => rfl
  | cons c rest ih =>
    by_cases h : c.serial_number == sn
    · simp [findStore, retimeStore, List.find?, h]
    · simpa [findStore, retimeStore, List.find?, h] using ih

/-- The grouping loop never reads a row's timestamp. -/
theorem groupSerials_retime (f : Int → Int) (cache : List SerialNumberLookup)
    (serials : List String) (items : List (String × ItemsDataEntry)) (ln : Nat) :
    groupSerials (retimeStore f cache) serials items ln
      = groupSerials cache serials items ln := by
  induction serials generalizing items with
  | nil => rfl
  | cons hd tl ih =>
    rw [groupSerials, groupSerials, findStore_retime]
    cases hfind : findStore cache hd with
    | none => rfl
    | some c => exact ih (groupStep items c hd ln)

/-- A submission call recorded by `submitStage` carries exactly the
payload handed to it. -/
theorem submitStage_call_eq (customer : String) (payload : SapInvoice)
    (env : SapEnv) (p : SapInvoice)
    (h : RemoteCall.submitInvoice p ∈ (submitStage customer payload env).calls) :
    p = payload := by
  obtain ⟨login, sub⟩ := env
  cases login with
  | false => simp [submitStage] at h
  | true =>
    cases sub <;>
      simpa [submitStage, List.mem_singleton,
             RemoteCall.submitInvoice.injEq] using h

/-- If a `create_invoice` request recorded a submission call, the request
passed validation and the submitted payload is the one built from the
grouping of its inputs; moreover the whole result is `submitStage`
applied to that payload. -/
theorem submit_call_payload (rawCustomer : String) (serials : List String)
    (cache : List SerialNumberLookup) (now : Int) (env : SapEnv)
    (p : SapInvoice)
    (h : RemoteCall.submitInvoice p
          ∈ (create_invoice rawCustomer serials cache now env).calls) :
    ∃ items, groupSerials cache serials [] 0 = Except.ok items
      ∧ buildSapInvoice (pyStrip rawCustomer) now items = some p
      ∧ create_invoice rawCustomer serials cache now env
          = submitStage (pyStrip rawCustomer) p env := by
  unfold create_invoice at h
  split at h
  · simp at h
  · rename_i hc1
    split at h
    · simp at h
    · rename_i hc2
      split at h
      · simp at h
      · rename_i items hitems
        split at h
        · simp at h
        · rename_i payload hpayload
          have hp := submitStage_call_eq _ _ _ _ h
          subst hp
          refine ⟨items, hitems, hpayload, ?_⟩
          simp [create_invoice, hc1, hc2, hitems, hpayload]

/-! ## Claim theorems -/

/-- C9: `create_invoice` rejects a blank customer code or an empty serial
list with a 400 validation error, makes no remote call of any kind, and
commits nothing. -/
theorem create_invoice_rejects_invalid_input (rawCustomer : String)
    (serials : List String) (cache : List SerialNumberLookup) (now : Int)
    (env : SapEnv) (h : pyStrip rawCustomer = "" ∨ serials = []) :
    (create_invoice rawCustomer serials cache now env).success = false
    ∧ (create_invoice rawCustomer serials cache now env).status = 400
    ∧ (create_invoice rawCustomer serials cache now env).calls = []
    ∧ (create_invoice rawCustomer serials cache now env).committed = none := by
  rcases h with h | h
  · simp [create_invoice, h]
  · subst h
    by_cases h1 : pyStrip rawCustomer = "" <;> simp [create_invoice, h1]

/-- Witness for C9 at a concrete input. -/
theorem create_invoice_rejects_invalid_input_witness :
    (create_invoice "   " ["SN1"] c1Cache 0 okEnv).success = false
    ∧ (create_invoice "   " ["SN1"] c1Cache 0 okEnv).status = 400
    ∧ (create_invoice "   " ["SN1"] c1Cache 0 okEnv).calls = []
    ∧ (create_invoice "   " ["SN1"] c1Cache 0 okEnv).committed = none :=
  create_invoice_rejects_invalid_input "   " ["SN1"] c1Cache 0 okEnv
    (Or.inl (by decide))

/-- C3, counterexample: the claim says a serial without a fresh cached
entry is resolved by falling back to the remote lookup capability.  At
the concrete input below — customer `C001`, one serial `SN1`, an empty
cache, SAP reachable — `create_invoice` performs no remote call at all
(in particular no lookup call) and fails, telling the caller to run the
lookup endpoint first. -/
theorem create_invoice_no_remote_lookup_fallback :
    (create_invoice "C001" ["SN1"] [] 0 okEnv).calls = []
    ∧ (create_invoice "C001" ["SN1"] [] 0 okEnv).success = false
    ∧ (create_invoice "C001" ["SN1"] [] 0 okEnv).message
        = "Serial number SN1 not found. Please lookup first." :=
  ⟨rfl, rfl, rfl⟩

/-- C3, amended: `create_invoice` resolves serials from the lookup cache
only — cached attributes are used regardless of how stale the row's
timestamp is (first conjunct), and if any requested serial has no cache
row the whole request fails with no remote call of any kind, so no
partial invoice is ever sent (second conjunct). -/
theorem create_invoice_cache_only_resolution :
    (∀ (rawCustomer : String) (serials : List String)
       (cache : List SerialNumberLookup) (now : Int) (env : SapEnv)
       (f : Int → Int),
       create_invoice rawCustomer serials (retimeStore f cache) now env
         = create_invoice rawCustomer serials cache now env)
    ∧ (∀ (rawCustomer : String) (serials : List String)
         (cache : List SerialNumberLookup) (now : Int) (env : SapEnv)
         (sn : String), sn ∈ serials → findStore cache sn = none →
         (create_invoice rawCustomer serials cache now env).success = false
         ∧ (create_invoice rawCustomer serials cache now env).calls = []
         ∧ (create_invoice rawCustomer serials cache now env).committed = none) := by
  constructor
  · intro rawCustomer serials cache now env f
    unfold create_invoice
    rw [groupSerials_retime]
  · intro rawCustomer serials cache now env sn hmem hnone
    obtain ⟨msg, hmsg⟩ :=
      groupSerials_error_of_missing cache serials [] 0 sn hmem hnone
    by_cases h1 : pyStrip rawCustomer = ""
    · simp [create_invoice, h1]
    · by_cases h2 : serials = []
      · subst h2; cases hmem
      · simp [create_invoice, h1, h2, hmsg]

/-- Witness for C3's amended theorem at a concrete input. -/
theorem create_invoice_cache_only_resolution_witness :
    (create_invoice "C001" ["SN9"] c1Cache 0 okEnv).success = false
    ∧ (create_invoice "C001" ["SN9"] c1Cache 0 okEnv).calls = []
    ∧ (create_invoice "C001" ["SN9"] c1Cache 0 okEnv).committed = none :=
  create_invoice_cache_only_resolution.2 "C001" ["SN9"] c1Cache 0 okEnv
    "SN9" (by decide) (by decide)

/-- C6: building the submission payload is deterministic — any two
`create_invoice` requests with the same customer, serial list, cache and
date submit the same payload, rendered to the same byte string,
whatever their remote environments do with it. -/
theorem build_payload_deterministic (rawCustomer : String)
    (serials : List String) (cache : List SerialNumberLookup) (now : Int)
    (env1 env2 : SapEnv) (p1 p2 : SapInvoice)
    (h1 : RemoteCall.submitInvoice p1
           ∈ (create_invoice rawCustomer serials cache now env1).calls)
    (h2 : RemoteCall.submitInvoice p2
           ∈ (create_invoice rawCustomer serials cache now env2).calls) :
    p1 = p2 ∧ renderSapInvoice p1 = renderSapInvoice p2 := by
  obtain ⟨items1, hg1, hb1, -⟩ :=
    submit_call_payload rawCustomer serials cache now env1 p1 h1
  obtain ⟨items2, hg2, hb2, -⟩ :=
    submit_call_payload rawCustomer serials cache now env2 p2 h2
  rw [hg1] at hg2
  cases hg2
  rw [hb1] at hb2
  cases hb2
  exact ⟨rfl, rfl⟩

/-- Witness for C6 at a concrete input: the accepted and the rejected
submission of the same request data carry the same payload. -/
theorem build_payload_deterministic_witness :
    c6Payload = c6Payload
    ∧ renderSapInvoice c6Payload = renderSapInvoice c6Payload :=
  build_payload_deterministic "C001" ["SN1"] [c1Row1] 0 okEnv rejectEnv
    c6Payload c6Payload (by decide) (by decide)

/-- C5: whenever a submission call is recorded, exactly one terminal
local invoice record is committed before returning: `created` with the
external document entry id, number and total captured on success;
`failed` with the raw error text stored — and the extracted error
message, not a generic one, surfaced — on a rejection or a transport
failure. -/
theorem submission_persists_terminal_record (rawCustomer : String)
    (serials : List String) (cache : List SerialNumberLookup) (now : Int)
    (env : SapEnv)
    (h : ∃ p, RemoteCall.submitInvoice p
               ∈ (create_invoice rawCustomer serials cache now env).calls) :
    ∃ inv, (create_invoice rawCustomer serials cache now env).committed
             = some inv
      ∧ (match env.submission with
         | .created docEntry docNum docTotal =>
             inv.status = "created" ∧ inv.sap_doc_entry = some docEntry
             ∧ inv.sap_doc_num = some docNum
             ∧ inv.total_amount = some docTotal
             ∧ (create_invoice rawCustomer serials cache now env).success
                 = true
         | .httpError s text parsed =>
             inv.status = "failed" ∧ inv.sap_response = text
             ∧ (create_invoice rawCustomer serials cache now env).message
                 = sapErrorMessage s text parsed
             ∧ (create_invoice rawCustomer serials cache now env).success
                 = false
         | .transportError m =>
             inv.status = "failed" ∧ inv.sap_response = m
             ∧ (create_invoice rawCustomer serials cache now env).message
                 = "SAP invoice creation error: " ++ m
             ∧ (create_invoice rawCustomer serials cache now env).success
                 = false) := by
  obtain ⟨p, hp⟩ := h
  obtain ⟨items, hg, hb, heq⟩ :=
    submit_call_payload rawCustomer serials cache now env p hp
  rw [heq] at hp ⊢
  obtain ⟨login, sub⟩ := env
  cases login with
  | false => simp [submitStage] at hp
  | true =>
    cases sub with
    | created docEntry docNum docTotal =>
      exact ⟨_, rfl, rfl, rfl, rfl, rfl, rfl⟩
    | httpError s text parsed => exact ⟨_, rfl, rfl, rfl, rfl, rfl⟩
    | transportError m => exact ⟨_, rfl, rfl, rfl, rfl, rfl⟩

/-- Witness for C5 at a concrete input: the rejected submission leaves a
committed record. -/
theorem submission_persists_terminal_record_witness :
    ((create_invoice "C001" ["SN1"] [c1Row1] 0 rejectEnv).committed).isSome
      = true := by
  obtain ⟨inv, hinv, -⟩ :=
    submission_persists_terminal_record "C001" ["SN1"] [c1Row1] 0 rejectEnv
      ⟨c6Payload, by decide⟩
  rw [hinv]
  rfl

/-- Adding one serial through `modifyKey` adds exactly one unit of total
quantity when the key is present. -/
theorem sumQ_modifyKey (m : List (String × ItemsDataEntry)) (k sn : String)
    (ln : Nat) (h : containsKey m k = true) :
    sumQ (modifyKey m k (appendSerial sn ln)) = sumQ m + 1 := by
  induction m with
  | nil => simp [containsKey] at h
  | cons q rest ih =>
    obtain ⟨k', e⟩ := q
    by_cases hk : (k' == k)
    · simp [modifyKey, hk, sumQ, appendSerial]
      omega
    · have h' : containsKey rest k = true := by
        simpa [containsKey, hk] using h
      have hrec := ih h'
      simp [modifyKey, hk, sumQ] at hrec ⊢
      omega

/-- Adding one serial through `modifyKey` adds exactly one assignment
for that serial's name when the key is present. -/
theorem countSerial_modifyKey (m : List (String × ItemsDataEntry))
    (k s sn : String) (ln : Nat) (h : containsKey m k = true) :
    countSerial s (modifyKey m k (appendSerial sn ln))
      = countSerial s m + (if (sn == s) then 1 else 0) := by
  induction m with
  | nil => simp [containsKey] at h
  | cons q rest ih =>
    obtain ⟨k', e⟩ := q
    by_cases hk : (k' == k)
    · by_cases hs : (sn == s) <;>
        simp [modifyKey, hk, countSerial, appendSerial, List.filter_append,
              hs] <;> omega
    · have h' : containsKey rest k = true := by
        simpa [containsKey, hk] using h
      have hrec := ih h'
      simp [modifyKey, hk, countSerial] at hrec ⊢
      omega

/-- Members of `modifyKey m k f` come from `m`, possibly with `f` applied
to the value. -/
theorem mem_modifyKey (m : List (String × ItemsDataEntry)) (k : String)
    (f : ItemsDataEntry → ItemsDataEntry) :
    ∀ p ∈ modifyKey m k f, p ∈ m ∨ ∃ q, q ∈ m ∧ p = (q.1, f q.2) := by
  induction m with
  | nil => simp [modifyKey]
  | cons q rest ih =>
    intro p hp
    obtain ⟨k', e⟩ := q
    simp only [modifyKey] at hp
    by_cases hk : (k' == k)
    · rw [if_pos hk] at hp
      rcases List.mem_cons.mp hp with rfl | hp
      · exact Or.inr ⟨(k', e), List.mem_cons_self _ _, rfl⟩
      · exact Or.inl (List.mem_cons_of_mem _ hp)
    · rw [if_neg hk] at hp
      rcases List.mem_cons.mp hp with rfl | hp
      · exact Or.inl (List.mem_cons_self _ _)
      · rcases ih p hp with h | ⟨q, hq, rfl⟩
        · exact Or.inl (List.mem_cons_of_mem _ h)
        · exact Or.inr ⟨q, List.mem_cons_of_mem _ hq, rfl⟩

/-- One grouping-loop iteration adds exactly one unit of total
quantity. -/
theorem sumQ_groupStep (items : List (String × ItemsDataEntry))
    (c : SerialNumberLookup) (sn : String) (ln : Nat) :
    sumQ (groupStep items c sn ln) = sumQ items + 1 := by
  by_cases h : containsKey items (itemKey c)
  · simp only [groupStep]
    rw [if_pos h, sumQ_modifyKey _ _ _ _ h]
  · simp only [groupStep]
    rw [if_neg h, sumQ_modifyKey]
    · simp [sumQ, initEntry]
    · simp [containsKey]

/-- One grouping-loop iteration adds exactly one assignment for the
serial it processes and none for any other serial. -/
theorem countSerial_groupStep (items : List (String × ItemsDataEntry))
    (c : SerialNumberLookup) (s sn : String) (ln : Nat) :
    countSerial s (groupStep items c sn ln)
      = countSerial s items + (if (sn == s) then 1 else 0) := by
  by_cases h : containsKey items (itemKey c)
  · simp only [groupStep]
    rw [if_pos h, countSerial_modifyKey _ _ _ _ _ h]
  · simp only [groupStep]
    rw [if_neg h, countSerial_modifyKey]
    · simp [countSerial, initEntry]
    · simp [containsKey]

/-- One grouping-loop iteration keeps every group's quantity equal to
the length of its serial list. -/
theorem qtyLen_groupStep (items : List (String × ItemsDataEntry))
    (c : SerialNumberLookup) (sn : String) (ln : Nat)
    (H : ∀ p ∈ items, p.2.Quantity = p.2.SerialNumbers.length) :
    ∀ p ∈ groupStep items c sn ln,
      p.2.Quantity = p.2.SerialNumbers.length := by
  intro p hp
  simp only [groupStep] at hp
  have Hbase : ∀ q ∈ (if containsKey items (itemKey c) then items
                      else items ++ [(itemKey c, initEntry c)]),
      q.2.Quantity = q.2.SerialNumbers.length := by
    split
    · exact H
    · intro q hq
      rcases List.mem_append.mp hq with hq | hq
      · exact H q hq
      · simp only [List.mem_singleton] at hq
        subst hq
        rfl
  rcases mem_modifyKey _ _ _ p hp with hmem | ⟨q, hq, rfl⟩
  · exact Hbase p hmem
  · have := Hbase q hq
    simp [appendSerial, this]

/-- Invariants of the whole grouping loop, relative to the accumulator it
starts from. -/
theorem groupSerials_invariants (cache : List SerialNumberLookup)
    (serials : List String) :
    ∀ (items : List (String × ItemsDataEntry)) (ln : Nat)
      (gs : List (String × ItemsDataEntry)),
      groupSerials cache serials items ln = Except.ok gs →
      sumQ gs = sumQ items + serials.length
      ∧ ((∀ p ∈ items, p.2.Quantity = p.2.SerialNumbers.length) →
          ∀ p ∈ gs, p.2.Quantity = p.2.SerialNumbers.length)
      ∧ ∀ s, countSerial s gs
          = countSerial s items + (serials.filter (fun x => x == s)).length := by
  induction serials with
  | nil =>
    intro items ln gs h
    simp only [groupSerials, Except.ok.injEq] at h
    subst h
    exact ⟨by simp, fun H => H, fun s => by simp⟩
  | cons hd tl ih =>
    intro items ln gs h
    cases hfind : findStore cache hd with
    | none => simp [groupSerials, hfind] at h
    | some c =>
      simp only [groupSerials, hfind] at h
      obtain ⟨h1, h2, h3⟩ := ih (groupStep items c hd ln) ln gs h
      refine ⟨?_, ?_, ?_⟩
      · rw [h1, sumQ_groupStep]
        simp only [List.length_cons]
        omega
      · intro H
        exact h2 (qtyLen_groupStep items c hd ln H)
      · intro s
        rw [h3 s, countSerial_groupStep]
        by_cases hs : (hd == s) <;> simp [List.filter_cons, hs] <;> omega

/-- C2: the aggregation partitions the input — group quantities sum to
the number of input serials, each input serial name occurs in the groups
exactly as often as in the input (in particular a serial appearing once
lands in exactly one group), each group's quantity equals the number of
serial assignments attached to it, and each document line built from a
group inherits that equality. -/
theorem aggregate_partitions_input (cache : List SerialNumberLookup)
    (serials : List String) (gs : List (String × ItemsDataEntry))
    (h : groupSerials cache serials [] 0 = Except.ok gs) :
    sumQ gs = serials.length
    ∧ (∀ p ∈ gs, p.2.Quantity = p.2.SerialNumbers.length)
    ∧ (∀ s, countSerial s gs = (serials.filter (fun x => x == s)).length)
    ∧ (∀ dl ∈ buildDocumentLines gs,
        dl.Quantity = dl.SerialNumbers.length) := by
  obtain ⟨h1, h2, h3⟩ := groupSerials_invariants cache serials [] 0 gs h
  have hq : ∀ p ∈ gs, p.2.Quantity = p.2.SerialNumbers.length := by
    refine h2 ?_
    intro p hp
    cases hp
  refine ⟨by simpa [sumQ] using h1, hq,
          fun s => by simpa [countSerial] using h3 s, ?_⟩
  intro dl hdl
  simp only [buildDocumentLines, List.mem_map] at hdl
  obtain ⟨p, hp, rfl⟩ := hdl
  exact hq p hp

/-- Witness for C2 on the end-to-end scenario. -/
theorem aggregate_partitions_input_witness :
    sumQ c2Groups = 3
    ∧ countSerial "SN2" c2Groups
        = ((["SN1", "SN2", "SN3"] : List String).filter
            (fun x => x == "SN2")).length := by
  have h := aggregate_partitions_input c1Cache ["SN1", "SN2", "SN3"]
    c2Groups (by rfl)
  exact ⟨h.1, h.2.2.1 "SN2"⟩

/-- `modifyKey` never changes the key sequence. -/
theorem keys_modifyKey (m : List (String × ItemsDataEntry)) (k : String)
    (f : ItemsDataEntry → ItemsDataEntry) :
    (modifyKey m k f).map Prod.fst = m.map Prod.fst := by
  induction m with
  | nil => rfl
  | cons q rest ih =>
    obtain ⟨k', e⟩ := q
    simp only [modifyKey]
    by_cases hk : (k' == k)
    · rw [if_pos hk]
      simp
    · rw [if_neg hk]
      simp [ih]

/-- `containsKey` is key membership in the key sequence. -/
theorem containsKey_eq (m : List (String × ItemsDataEntry)) (k : String) :
    containsKey m k = (m.map Prod.fst).any (fun x => x == k) := by
  induction m with
  | nil => rfl
  | cons q rest ih => simp [containsKey, List.any_cons] at ih ⊢; rw [ih]

/-- One grouping-loop iteration inserts the serial's key into the key
sequence exactly the way a Python dict insertion does. -/
theorem keys_groupStep (items : List (String × ItemsDataEntry))
    (c : SerialNumberLookup) (sn : String) (ln : Nat) :
    (groupStep items c sn ln).map Prod.fst
      = insKey (items.map Prod.fst) (itemKey c) := by
  simp only [groupStep]
  by_cases h : containsKey items (itemKey c)
  · have h' : (items.map Prod.fst).any (fun x => x == itemKey c) = true := by
      rw [← containsKey_eq]
      exact h
    rw [if_pos h, keys_modifyKey, insKey, if_pos h']
  · have h' : ¬((items.map Prod.fst).any (fun x => x == itemKey c) = true) := by
      rw [← containsKey_eq]
      exact h
    rw [if_neg h, keys_modifyKey, insKey, if_neg h']
    simp

/-- Updating the group under a present key rewrites exactly that group's
value. -/
theorem lookupEntry_modifyKey (m : List (String × ItemsDataEntry))
    (k : String) (f : ItemsDataEntry → ItemsDataEntry)
    (h : containsKey m k = true) :
    lookupEntry (modifyKey m k f) k = (lookupEntry m k).map f := by
  induction m with
  | nil => simp [containsKey] at h
  | cons q rest ih =>
    obtain ⟨k', e⟩ := q
    by_cases hk : (k' == k)
    · simp [modifyKey, hk, lookupEntry, List.find?_cons]
    · have h' : containsKey rest k = true := by
        simpa [containsKey, hk] using h
      have hrec := ih h'
      simp [modifyKey, hk, lookupEntry, List.find?_cons] at hrec ⊢
      exact hrec

/-- The grouping loop's key order is the fold of dict insertions over the
resolved keys, in input order. -/
theorem groupSerials_keys (cache : List SerialNumberLookup)
    (serials : List String) :
    ∀ (items : List (String × ItemsDataEntry)) (ln : Nat)
      (gs : List (String × ItemsDataEntry)),
      groupSerials cache serials items ln = Except.ok gs →
      gs.map Prod.fst
        = List.foldl insKey (items.map Prod.fst) (keyListOf cache serials) := by
  induction serials with
  | nil =>
    intro items ln gs h
    simp only [groupSerials, Except.ok.injEq] at h
    subst h
    simp [keyListOf]
  | cons hd tl ih =>
    intro items ln gs h
    cases hfind : findStore cache hd with
    | none => simp [groupSerials, hfind] at h
    | some c =>
      simp only [groupSerials, hfind] at h
      rw [ih (groupStep items c hd ln) ln gs h, keys_groupStep]
      simp [keyListOf, List.filterMap_cons, hfind]

/-- C8: grouping is order-stable — the output group sequence carries the
keys in first-occurrence order of the input (first conjunct, as a fold of
dict insertions); two inputs with the same first-occurrence key order
yield identical group key order (second conjunct); and a serial whose key
was already seen leaves the key order untouched and appends to the
existing group (third conjunct). -/
theorem aggregate_order_stable :
    (∀ (cache : List SerialNumberLookup) (serials : List String)
       (gs : List (String × ItemsDataEntry)),
       groupSerials cache serials [] 0 = Except.ok gs →
       gs.map Prod.fst = List.foldl insKey [] (keyListOf cache serials))
    ∧ (∀ (cache : List SerialNumberLookup) (xs ys : List String)
         (gx gy : List (String × ItemsDataEntry)),
         groupSerials cache xs [] 0 = Except.ok gx →
         groupSerials cache ys [] 0 = Except.ok gy →
         List.foldl insKey [] (keyListOf cache xs)
           = List.foldl insKey [] (keyListOf cache ys) →
         gx.map Prod.fst = gy.map Prod.fst)
    ∧ (∀ (items : List (String × ItemsDataEntry)) (c : SerialNumberLookup)
         (sn : String) (ln : Nat), containsKey items (itemKey c) = true →
         (groupStep items c sn ln).map Prod.fst = items.map Prod.fst
         ∧ lookupEntry (groupStep items c sn ln) (itemKey c)
             = (lookupEntry items (itemKey c)).map (appendSerial sn ln)) := by
  refine ⟨?_, ?_, ?_⟩
  · intro cache serials gs h
    simpa using groupSerials_keys cache serials [] 0 gs h
  · intro cache xs ys gx gy hx hy hk
    have h1 := groupSerials_keys cache xs [] 0 gx hx
    have h2 := groupSerials_keys cache ys [] 0 gy hy
    simp only [List.map_nil] at h1 h2
    rw [h1, h2, hk]
  · intro items c sn ln h
    constructor
    · have h' : (items.map Prod.fst).any (fun x => x == itemKey c) = true := by
        rw [← containsKey_eq]
        exact h
      rw [keys_groupStep, insKey, if_pos h']
    · simp only [groupStep]
      rw [if_pos h]
      exact lookupEntry_modifyKey items (itemKey c) _ h

/-- Witness for C8 on the end-to-end scenario. -/
theorem aggregate_order_stable_witness :
    c2Groups.map Prod.fst
      = List.foldl insKey [] (keyListOf c1Cache ["SN1", "SN2", "SN3"]) :=
  aggregate_order_stable.1 c1Cache ["SN1", "SN2", "SN3"] c2Groups (by rfl)

/-- A row found by serial number carries that serial number. -/
theorem findStore_some_serial (store : List SerialNumberLookup)
    (sn : String) (c : SerialNumberLookup)
    (h : findStore store sn = some c) : c.serial_number = sn := by
  induction store with
  | nil => simp [findStore] at h
  | cons d rest ih =>
    by_cases hd : (d.serial_number == sn)
    · have hdc : d = c := by
        simpa [findStore, List.find?_cons, hd] using h
      subst hdc
      exact eq_of_beq hd
    · have h' : findStore rest sn = some c := by
        simpa [findStore, List.find?_cons, hd] using h
      exact ih h'

/-- Appending a row for a previously absent serial makes it findable. -/
theorem findStore_append_of_none (store : List SerialNumberLookup)
    (sn : String) (e : SerialNumberLookup)
    (h : findStore store sn = none) (he : e.serial_number = sn) :
    findStore (store ++ [e]) sn = some e := by
  induction store with
  | nil => simp [findStore, List.find?, he]
  | cons c rest ih =>
    by_cases hc : (c.serial_number == sn)
    · exfalso
      simp [findStore, List.find?_cons, hc] at h
    · have h' : findStore rest sn = none := by
        simpa [findStore, List.find?_cons, hc] using h
      simpa [findStore, List.find?_cons, hc] using ih h'

/-- Replacing the found row makes the replacement findable. -/
theorem findStore_updateStore (store : List SerialNumberLookup)
    (sn : String) (c e : SerialNumberLookup)
    (h : findStore store sn = some c) (he : e.serial_number = sn) :
    findStore (updateStore store sn e) sn = some e := by
  induction store with
  | nil => simp [findStore] at h
  | cons d rest ih =>
    by_cases hd : (d.serial_number == sn)
    · simp [updateStore, hd, findStore, List.find?_cons, he]
    · have h' : findStore rest sn = some c := by
        simpa [findStore, List.find?_cons, hd] using h
      simpa [updateStore, hd, findStore, List.find?_cons, hd] using ih h'

/-- A fresh cache hit resolves entirely from the cache. -/
theorem lookup_serial_hit_eq (store : List SerialNumberLookup) (now : Int)
    (raw : String) (env : LookupEnv) (c : SerialNumberLookup)
    (hraw : ¬(pyStrip raw = ""))
    (hfind : findStore store (pyStrip raw) = some c)
    (hfresh : now - c.last_updated < 3600) :
    lookup_serial store now raw env
      = { success := true, message := "",
          payload := some (cachedItemData (pyStrip raw) c), cached := true,
          status := 200, store := store, remoteCalls := 0 } := by
  rw [lookup_serial, if_neg hraw]
  simp only [hfind]
  rw [if_pos hfresh]

/-- A cache miss with a successful remote lookup inserts a new row. -/
theorem lookup_serial_miss_insert_eq (store : List SerialNumberLookup)
    (now : Int) (raw : String) (item : ItemData) (rest : List ItemData)
    (hraw : ¬(pyStrip raw = ""))
    (hfind : findStore store (pyStrip raw) = none) :
    lookup_serial store now raw ⟨true, .ok (item :: rest)⟩
      = { success := true, message := "", payload := some item,
          cached := false, status := 200,
          store := store ++ [newEntry (pyStrip raw) item now],
          remoteCalls := 1 } := by
  rw [lookup_serial, if_neg hraw]
  simp only [hfind]
  rfl

/-- A stale cache entry with a successful remote lookup is refreshed in
place. -/
theorem lookup_serial_stale_refresh_eq (store : List SerialNumberLookup)
    (now : Int) (raw : String) (c : SerialNumberLookup) (item : ItemData)
    (rest : List ItemData) (hraw : ¬(pyStrip raw = ""))
    (hfind : findStore store (pyStrip raw) = some c)
    (hstale : ¬(now - c.last_updated < 3600)) :
    lookup_serial store now raw ⟨true, .ok (item :: rest)⟩
      = { success := true, message := "", payload := some item,
          cached := false, status := 200,
          store := updateStore store (pyStrip raw) (refreshedEntry c item now),
          remoteCalls := 1 } := by
  rw [lookup_serial, if_neg hraw]
  simp only [hfind]
  rw [if_neg hstale]
  rfl

/-- C4: the freshness policy of the lookup cache — a cached row younger
than one hour answers with the cached attributes and no remote call
(first conjunct); a miss followed, within the window, by a second
resolve of the same serial costs exactly one remote call in total
(second conjunct); once the window has elapsed, a resolve makes a new
remote call and overwrites the cached row with the fresh attributes
(third conjunct). -/
theorem lookup_cache_freshness_policy :
    (∀ (store : List SerialNumberLookup) (now : Int) (raw : String)
       (env : LookupEnv) (c : SerialNumberLookup),
       ¬(pyStrip raw = "") → findStore store (pyStrip raw) = some c →
       now - c.last_updated < 3600 →
       (lookup_serial store now raw env).remoteCalls = 0
       ∧ (lookup_serial store now raw env).payload
           = some (cachedItemData (pyStrip raw) c))
    ∧ (∀ (store : List SerialNumberLookup) (t0 t1 : Int) (raw : String)
         (item : ItemData) (rest : List ItemData) (env2 : LookupEnv),
         ¬(pyStrip raw = "") → findStore store (pyStrip raw) = none →
         t1 - t0 < 3600 →
         (lookup_serial store t0 raw ⟨true, .ok (item :: rest)⟩).remoteCalls
           + (lookup_serial
               (lookup_serial store t0 raw ⟨true, .ok (item :: rest)⟩).store
               t1 raw env2).remoteCalls = 1)
    ∧ (∀ (store : List SerialNumberLookup) (now : Int) (raw : String)
         (c : SerialNumberLookup) (item : ItemData) (rest : List ItemData),
         ¬(pyStrip raw = "") → findStore store (pyStrip raw) = some c →
         ¬(now - c.last_updated < 3600) →
         (lookup_serial store now raw ⟨true, .ok (item :: rest)⟩).remoteCalls = 1
         ∧ findStore
             (lookup_serial store now raw ⟨true, .ok (item :: rest)⟩).store
             (pyStrip raw) = some (refreshedEntry c item now)) := by
  refine ⟨?_, ?_, ?_⟩
  · intro store now raw env c hraw hfind hfresh
    rw [lookup_serial_hit_eq store now raw env c hraw hfind hfresh]
    exact ⟨rfl, rfl⟩
  · intro store t0 t1 raw item rest env2 hraw hfind hlt
    rw [lookup_serial_miss_insert_eq store t0 raw item rest hraw hfind]
    dsimp only
    rw [lookup_serial_hit_eq (store ++ [newEntry (pyStrip raw) item t0]) t1
          raw env2 (newEntry (pyStrip raw) item t0) hraw
          (findStore_append_of_none store (pyStrip raw) _ hfind rfl) hlt]
    rfl
  · intro store now raw c item rest hraw hfind hstale
    rw [lookup_serial_stale_refresh_eq store now raw c item rest hraw hfind
          hstale]
    refine ⟨rfl, ?_⟩
    exact findStore_updateStore store (pyStrip raw) c _ hfind
      (findStore_some_serial store (pyStrip raw) c hfind)

/-- Witness for C4: a fresh hit (part 1) at a concrete input. -/
theorem lookup_cache_freshness_policy_witness :
    (lookup_serial [c1Row1] 0 "SN1" oneItemEnv).remoteCalls = 0
    ∧ (lookup_serial [c1Row1] 0 "SN1" oneItemEnv).payload
        = some (cachedItemData (pyStrip "SN1") c1Row1) :=
  lookup_cache_freshness_policy.1 [c1Row1] 0 "SN1" oneItemEnv c1Row1
    (by decide) (by decide) (by decide)

/-- C10: a fresh cache hit leaves the store exactly as it was — no row
is modified, nothing is written, and the entry (with its original
`last_updated`) is still what a later lookup finds, so repeated hits
never extend the freshness window. -/
theorem lookup_cache_hit_frame (store : List SerialNumberLookup)
    (now : Int) (raw : String) (env : LookupEnv) (c : SerialNumberLookup)
    (hraw : ¬(pyStrip raw = ""))
    (hfind : findStore store (pyStrip raw) = some c)
    (hfresh : now - c.last_updated < 3600) :
    (lookup_serial store now raw env).store = store
    ∧ (lookup_serial store now raw env).remoteCalls = 0
    ∧ findStore (lookup_serial store now raw env).store (pyStrip raw)
        = some c := by
  rw [lookup_serial_hit_eq store now raw env c hraw hfind hfresh]
  exact ⟨rfl, rfl, hfind⟩

/-- Witness for C10 at a concrete input. -/
theorem lookup_cache_hit_frame_witness :
    (lookup_serial [c1Row2] 100 "SN2" oneItemEnv).store = [c1Row2]
    ∧ (lookup_serial [c1Row2] 100 "SN2" oneItemEnv).remoteCalls = 0
    ∧ findStore (lookup_serial [c1Row2] 100 "SN2" oneItemEnv).store
        (pyStrip "SN2") = some c1Row2 :=
  lookup_cache_hit_frame [c1Row2] 100 "SN2" oneItemEnv c1Row2
    (by decide) (by decide) (by decide)

/-- Replacing a row by one carrying the same serial number leaves the
serial-number column unchanged. -/
theorem updateStore_serials (store : List SerialNumberLookup) (sn : String)
    (e : SerialNumberLookup) (he : e.serial_number = sn) :
    (updateStore store sn e).map (fun x => x.serial_number)
      = store.map (fun x => x.serial_number) := by
  induction store with
  | nil => rfl
  | cons d rest ih =>
    by_cases hd : (d.serial_number == sn)
    · simp [updateStore, hd, he, eq_of_beq hd]
    · simp [updateStore, hd, ih]

/-- `updateStore` never changes the number of rows. -/
theorem updateStore_length (store : List SerialNumberLookup) (sn : String)
    (e : SerialNumberLookup) :
    (updateStore store sn e).length = store.length := by
  induction store with
  | nil => rfl
  | cons d rest ih =>
    by_cases hd : (d.serial_number == sn) <;> simp [updateStore, hd, ih]

/-- A serial that `findStore` cannot find is absent from the
serial-number column. -/
theorem not_mem_of_findStore_none (store : List SerialNumberLookup)
    (sn : String) (h : findStore store sn = none) :
    sn ∉ store.map (fun x => x.serial_number) := by
  simp only [findStore] at h
  intro hmem
  obtain ⟨e, he, heq⟩ := List.mem_map.mp hmem
  have := List.find?_eq_none.mp h e he
  rw [heq] at this
  simp at this

/-- C7, counterexample: the claim says every operation recording lookup
data upserts.  The `/create` route stages an unconditional insert: with
a row for SN1 already cached, posting an item for SN1 does not update
that row — the staged duplicate insert makes the commit fail against the
table's unique constraint. -/
theorem create_route_insert_not_upsert :
    (createRouteLookupRows [⟨"SN1", "ITM-X", "Item X", "WH9"⟩] 5).map
        (fun e => e.serial_number) = ["SN1"]
    ∧ createRouteRecord [c1Row1] [⟨"SN1", "ITM-X", "Item X", "WH9"⟩] 5
        = Except.error "IntegrityError: duplicate serial_number" := by
  constructor
  · rfl
  · rfl

/-- Unless the environment is "login succeeded and the query returned a
non-empty result", `lookup_serial` leaves the store untouched. -/
theorem lookup_serial_store_unchanged (store : List SerialNumberLookup)
    (now : Int) (raw : String) (env : LookupEnv)
    (h : ∀ (item : ItemData) (rest : List ItemData),
         env ≠ ⟨true, LookupOutcome.ok (item :: rest)⟩) :
    (lookup_serial store now raw env).store = store := by
  by_cases hraw : pyStrip raw = ""
  · simp [lookup_serial, hraw]
  · rw [lookup_serial, if_neg hraw]
    obtain ⟨login, remote⟩ := env
    have hsap : ∀ cached?,
        (lookupFromSap store now (pyStrip raw) ⟨login, remote⟩ cached?).store
          = store := by
      intro cached?
      cases login with
      | false => rfl
      | true =>
        cases remote with
        | ok values =>
          cases values with
          | nil => rfl
          | cons item rest => exact absurd rfl (h item rest)
        | httpError s t => rfl
        | transportError m => rfl
    cases hfind : findStore store (pyStrip raw) with
    | some c =>
      simp only [hfind]
      by_cases hfresh : now - c.last_updated < 3600
      · rw [if_pos hfresh]
      · rw [if_neg hfresh]
        exact hsap (some c)
    | none =>
      simp only [hfind]
      exact hsap none

/-- C7, amended: at most one lookup entry per serial number holds, but
not because every operation upserts — `lookup_serial` does upsert (it
keeps the serial column duplicate-free and never adds a row when one
exists for the serial), while the `/create` route inserts
unconditionally and only the table's unique constraint stops it: a
commit that succeeds keeps the column duplicate-free, and recording an
already-cached serial through the route fails instead of updating the
existing entry. -/
theorem lookup_entry_uniqueness :
    (∀ (store : List SerialNumberLookup) (now : Int) (raw : String)
       (env : LookupEnv),
       (store.map (fun e => e.serial_number)).Nodup →
       ((lookup_serial store now raw env).store.map
          (fun e => e.serial_number)).Nodup)
    ∧ (∀ (store : List SerialNumberLookup) (now : Int) (raw : String)
         (env : LookupEnv) (c : SerialNumberLookup),
         findStore store (pyStrip raw) = some c →
         (lookup_serial store now raw env).store.length = store.length)
    ∧ (∀ (store : List SerialNumberLookup) (items : List SerialItemInput)
         (now : Int) (result : List SerialNumberLookup),
         createRouteRecord store items now = Except.ok result →
         (result.map (fun e => e.serial_number)).Nodup)
    ∧ (∀ (store : List SerialNumberLookup) (items : List SerialItemInput)
         (now : Int) (it : SerialItemInput), it ∈ items →
         (findStore store it.serial_number).isSome = true →
         createRouteRecord store items now
           = Except.error "IntegrityError: duplicate serial_number") := by
  refine ⟨?_, ?_, ?_, ?_⟩
  · intro store now raw env hnodup
    by_cases hraw : pyStrip raw = ""
    · simpa [lookup_serial, hraw] using hnodup
    · obtain ⟨login, remote⟩ := env
      cases login with
      | false =>
        rw [lookup_serial_store_unchanged store now raw _
              (fun item rest heq => by simp at heq)]
        exact hnodup
      | true =>
        cases remote with
        | ok values =>
          cases values with
          | nil =>
            rw [lookup_serial_store_unchanged store now raw _
                  (fun item rest heq => by simp at heq)]
            exact hnodup
          | cons item rest =>
            cases hfind : findStore store (pyStrip raw) with
            | some c =>
              by_cases hfresh : now - c.last_updated < 3600
              · rw [lookup_serial_hit_eq store now raw _ c hraw hfind hfresh]
                exact hnodup
              · rw [lookup_serial_stale_refresh_eq store now raw c item rest
                      hraw hfind hfresh]
                dsimp only
                rw [updateStore_serials store (pyStrip raw)
                      (refreshedEntry c item now)
                      (findStore_some_serial store (pyStrip raw) c hfind)]
                exact hnodup
            | none =>
              rw [lookup_serial_miss_insert_eq store now raw item rest hraw
                    hfind]
              dsimp only
              rw [List.map_append]
              refine List.Nodup.append hnodup (List.nodup_singleton _) ?_
              intro a ha hb
              simp only [List.map_cons, List.map_nil,
                         List.mem_singleton] at hb
              subst hb
              exact not_mem_of_findStore_none store (pyStrip raw) hfind ha
        | httpError s t =>
          rw [lookup_serial_store_unchanged store now raw _
                (fun item rest heq => by simp at heq)]
          exact hnodup
        | transportError m =>
          rw [lookup_serial_store_unchanged store now raw _
                (fun item rest heq => by simp at heq)]
          exact hnodup
  · intro store now raw env c hfind
    obtain ⟨login, remote⟩ := env
    cases login with
    | false =>
      rw [lookup_serial_store_unchanged store now raw _
            (fun item rest heq => by simp at heq)]
    | true =>
      cases remote with
      | ok values =>
        cases values with
        | nil =>
          rw [lookup_serial_store_unchanged store now raw _
                (fun item rest heq => by simp at heq)]
        | cons item rest =>
          by_cases hraw : pyStrip raw = ""
          · simp [lookup_serial, hraw]
          · by_cases hfresh : now - c.last_updated < 3600
            · rw [lookup_serial_hit_eq store now raw _ c hraw hfind hfresh]
            · rw [lookup_serial_stale_refresh_eq store now raw c item rest
                    hraw hfind hfresh]
              exact updateStore_length store (pyStrip raw) _
      | httpError s t =>
        rw [lookup_serial_store_unchanged store now raw _
              (fun item rest heq => by simp at heq)]
      | transportError m =>
        rw [lookup_serial_store_unchanged store now raw _
              (fun item rest heq => by simp at heq)]
  · intro store items now result h
    by_cases hd : ((store ++ createRouteLookupRows items now).map
        (fun e => e.serial_number)).Nodup
    · rw [createRouteRecord, commitInserts, if_pos hd] at h
      obtain rfl : store ++ createRouteLookupRows items now = result :=
        Except.ok.inj h
      exact hd
    · rw [createRouteRecord, commitInserts, if_neg hd] at h
      exact absurd h (by simp)
  · intro store items now it hmem hsome
    rw [createRouteRecord, commitInserts, if_neg]
    intro hnodup
    rw [List.map_append] at hnodup
    have hdisj := (List.nodup_append.mp hnodup).2.2
    obtain ⟨e, he⟩ := Option.isSome_iff_exists.mp hsome
    have hmem1 : it.serial_number ∈ store.map (fun x => x.serial_number) :=
      List.mem_map.mpr ⟨e, List.mem_of_find?_eq_some he,
        findStore_some_serial store it.serial_number e he⟩
    have hmem2 : it.serial_number
        ∈ (createRouteLookupRows items now).map (fun x => x.serial_number) :=
      List.mem_map.mpr ⟨_, List.mem_map.mpr ⟨it, hmem, rfl⟩, rfl⟩
    exact hdisj hmem1 hmem2

/-- Witness for C7's amended theorem at concrete inputs. -/
theorem lookup_entry_uniqueness_witness :
    (((lookup_serial [c1Row1] 9999 "SN1" oneItemEnv).store).map
        (fun e => e.serial_number)).Nodup
    ∧ (lookup_serial [c1Row1] 9999 "SN1" oneItemEnv).store.length
        = ([c1Row1] : List SerialNumberLookup).length :=
  ⟨lookup_entry_uniqueness.1 [c1Row1] 9999 "SN1" oneItemEnv (by decide),
   lookup_entry_uniqueness.2.1 [c1Row1] 9999 "SN1" oneItemEnv c1Row1
     (by decide)⟩
